import Mathlib

set_option maxHeartbeats 1000000

/-! Shallow embedding of src/docmate_service.py.

External collaborators (the GitHub API client, the llama-index repository
reader and vector index, the OpenAI query engine) are modelled as records of
oracle functions; each operation either returns a value or raises a Python
exception, written as Except with the exception message string. Handlers are
pure functions from the request and the current cache state to a response, the
new cache state, and a count of Repository Loader invocations. -/

/-- The JSON body of a POST /query request: the three fields the handler
reads, each possibly absent. -/
structure ReqBody where
  repo : Option String
  query : Option String
  branch : Option String

/-- Oracle for the external collaborators of load_github_docs. `envToken`
models os.getenv with the GITHUB_TOKEN key; `githubInit` models the
Github(token) constructor; `getRepo` models g.get_repo; `getBranchSha` models
repository.get_branch(branch).commit.sha; `clientInit` models
GithubClient(token); `loadData` models reader.load_data given owner, repo and
commit sha; `fromDocuments` models VectorStoreIndex.from_documents. -/
structure GithubEnv (Index : Type) where
  envToken : Option String
  githubInit : String → Except String Unit
  getRepo : String → Except String Unit
  getBranchSha : String → String → Except String String
  clientInit : String → Except String Unit
  loadData : String → String → String → Except String (List String)
  fromDocuments : List String → Except String Index

/-- Observable outcome of one load_github_docs call: `result` is the value
returned to the caller, or the exception that propagated out; `closed` records
whether g.close() ran in the finally block; `getRepoArg` records the argument
passed to g.get_repo, when that call was reached. -/
structure LoadOutcome (Index : Type) where
  result : Except String (Option Index)
  closed : Bool
  getRepoArg : Option String

/-- Message of the UnboundLocalError raised by evaluating g.close() in the
finally block when the local variable g was never assigned. -/
def unboundLocalErrorG : String :=
  "UnboundLocalError: local variable g referenced before assignment"

/-- Python str.split with a one-character separator, written on the character
list so that it evaluates: s.split(sep) keeps empty segments and yields one
segment for the empty string, exactly like List.splitOn on the characters. -/
def pySplit (sep : Char) (s : String) : List String :=
  (s.toList.splitOn sep).map (fun cs => String.mk cs)

/-- The body of the try block of load_github_docs from the repo-name split
onward (lines 41 to 69 of the source): split repo_name on the slash, take
segment 0 as owner and segment 1 as repo, look up the repository, resolve the
branch commit, build the reader, load the documents, and build the index.
Returns the g.get_repo argument (when reached) and the result of the block
before the except and finally clauses handle it: an exception, or none when
documents is empty, or the built index. Fewer than two segments raises the
IndexError of the subscript at index 1. -/
def load_try_body (Index : Type) (env : GithubEnv Index) (token : String)
    (repo_name : String) (branch : String) :
    Option String × Except String (Option Index) :=
  match pySplit '/' repo_name with
  | [] => (none, .error "IndexError: list index out of range")
  | [_] => (none, .error "IndexError: list index out of range")
  | owner :: repo :: _ =>
    let full := owner ++ "/" ++ repo
    (some full,
      match env.getRepo full with
      | .error e => .error e
      | .ok () =>
        match env.getBranchSha full branch with
        | .error e => .error e
        | .ok sha =>
          match env.clientInit token with
          | .error e => .error e
          | .ok () =>
            match env.loadData owner repo sha with
            | .error e => .error e
            | .ok docs =>
              if docs.isEmpty then .ok none
              else
                match env.fromDocuments docs with
                | .error e => .error e
                | .ok idx => .ok (some idx))

/-- load_github_docs (source lines 26 to 76). Token resolution: a none
argument falls back to the environment; a missing or empty environment token
raises ValueError before g is assigned. Any exception raised before
g = Github(token) succeeds is caught by the except clause, but the finally
clause then evaluates g.close() with g unbound, so UnboundLocalError
propagates to the caller and the client is never closed. Once g is bound,
every exception of the try body is caught and converted to a none return, and
the finally clause closes g. -/
def load_github_docs (Index : Type) (env : GithubEnv Index)
    (repo_name : String) (github_token : Option String) (branch : String) :
    LoadOutcome Index :=
  let resolved : Except String String :=
    match github_token with
    | some t => .ok t
    | none =>
      match env.envToken with
      | none => .error "GitHub token not found"
      | some t => if t = "" then .error "GitHub token not found" else .ok t
  match resolved with
  | .error _ => ⟨ .error unboundLocalErrorG, false, none⟩
  | .ok token =>
    match env.githubInit token with
    | .error _ => ⟨ .error unboundLocalErrorG, false, none⟩
    | .ok () =>
      let tb := load_try_body Index env token repo_name branch
      match tb.2 with
      | .error _ => ⟨ .ok none, true, tb.1⟩
      | .ok r => ⟨ .ok r, true, tb.1⟩

/-- Lookup in the repo cache, modelled as an association list with the
semantics of a Python dict: first binding for the key wins. -/
def cacheLookup (Index : Type) (key : String) :
    List (String × Index) → Option Index
  | [] => none
  | kv :: rest => if kv.1 = key then some kv.2 else cacheLookup Index key rest

/-- get_or_create_index (source lines 78 to 89), parameterised by the
Repository Loader it calls on a miss (the source calls load_github_docs,
which may raise). Returns the value the caller receives (or the exception
that propagated), the cache mapping after the call, and how many times the
loader was invoked. The whole operation runs under cache_lock in the source;
sequential state passing models the serialised execution. -/
def get_or_create_index (Index : Type)
    (loader : String → String → Except String (Option Index))
    (repo_cache : List (String × Index)) (repo_name : String)
    (branch : String) :
    Except String (Option Index) × List (String × Index) × Nat :=
  let cache_key := repo_name ++ ":" ++ branch
  match cacheLookup Index cache_key repo_cache with
  | some _ => ( .ok (cacheLookup Index cache_key repo_cache), repo_cache, 0)
  | none =>
    match loader repo_name branch with
    | .error e => ( .error e, repo_cache, 1)
    | .ok none => ( .ok (cacheLookup Index cache_key repo_cache), repo_cache, 1)
    | .ok (some index) =>
      let repo_cache2 := (cache_key, index) :: repo_cache
      ( .ok (cacheLookup Index cache_key repo_cache2), repo_cache2, 1)

/-- The object returned by query_engine.query: its str() form and the text of
each source node, in the order of response.source_nodes. -/
structure EngineResponse where
  text : String
  sourceNodes : List String

/-- Oracle for the external collaborators of the POST /query handler:
`loader` is load_github_docs as called by get_or_create_index; `runEngine`
models index.as_query_engine(similarity_top_k, llm).query(query), taking the
index, the similarity_top_k value, the OpenAI model identifier and the query
string. -/
structure QueryEnv (Index : Type) where
  loader : String → String → Except String (Option Index)
  runEngine : Index → Nat → String → String → Except String EngineResponse

/-- A JSON response body of the /query endpoint: an error object or an
answer object carrying the response text and the source texts. -/
inductive RespBody where
  | err : String → RespBody
  | answer : String → List String → RespBody

/-- Observable outcome of one POST /query handling: response body, HTTP
status, cache mapping after the call, number of loader invocations. -/
structure HandlerOutcome (Index : Type) where
  resp : RespBody
  status : Nat
  cache : List (String × Index)
  loaderCalls : Nat

/-- query_docs (source lines 91 to 140). A missing body or missing repo or
query field returns 400 before touching the cache; a none index returns 500
with the fixed message; otherwise the query engine is built with
similarity_top_k 3 and the OpenAI model gpt-3.5-turbo and run; the outer
except converts any propagated exception into a 500 carrying str(e). -/
def query_docs (Index : Type) (env : QueryEnv Index)
    (repo_cache : List (String × Index)) (body : Option ReqBody) :
    HandlerOutcome Index :=
  match body with
  | none => ⟨ .err "Missing required parameters", 400, repo_cache, 0⟩
  | some data =>
    match data.repo, data.query with
    | some repo, some q =>
      let branch := data.branch.getD "main"
      let r := get_or_create_index Index env.loader repo_cache repo branch
      match r.1 with
      | .error e => ⟨ .err e, 500, r.2.1, r.2.2⟩
      | .ok none => ⟨ .err "Failed to load repository", 500, r.2.1, r.2.2⟩
      | .ok (some index) =>
        match env.runEngine index 3 "gpt-3.5-turbo" q with
        | .error e => ⟨ .err e, 500, r.2.1, r.2.2⟩
        | .ok resp => ⟨ .answer resp.text resp.sourceNodes, 200, r.2.1, r.2.2⟩
    | _, _ => ⟨ .err "Missing required parameters", 400, repo_cache, 0⟩

/-- health_check (source lines 142 to 145): reads no state, writes no state,
returns the constant body with the framework default status 200. -/
def health_check (Index : Type) (repo_cache : List (String × Index)) :
    ((String × String) × Nat) × List (String × Index) :=
  ((( "status", "healthy"), 200), repo_cache)

/-- The required environment variables checked in the main block. -/
def required_vars : List String := [ "GITHUB_TOKEN", "OPENAI_API_KEY"]

/-- missing_vars (source line 150): the required variables whose value is
absent or empty, mirroring the not os.getenv(var) test. -/
def missing_vars (env : String → Option String) : List String :=
  required_vars.filter (fun v => ((env v).getD "").isEmpty)

/-- Outcome of the main block: the ValueError raised when variables are
missing, or reaching app.run, which binds the port and serves. -/
inductive StartupResult where
  | valueError : String → StartupResult
  | serve : StartupResult

/-- The main block (source lines 147 to 155): raise ValueError naming the
missing variables, else run the app. -/
def main_startup (env : String → Option String) : StartupResult :=
  let missing := missing_vars env
  if missing.isEmpty then .serve
  else
    .valueError ( "Missing required environment variables: "
      ++ String.intercalate ", " missing)

/-! Concrete fixtures used by the witness theorems. -/

/-- A loader that always succeeds with index 7. -/
def loaderW : String → String → Except String (Option Nat) :=
  fun _ _ => .ok (some 7)

/-- A query environment whose loader yields index 7 and whose engine yields a
fixed answer with two source nodes. -/
def envW : QueryEnv Nat :=
  ⟨ loaderW, fun _ _ _ _ => .ok ⟨ "ans", [ "s1", "s2"]⟩⟩

/-- A query environment whose loader raises. -/
def envBoom : QueryEnv Nat :=
  ⟨ fun _ _ => .error "boom", fun _ _ _ _ => .ok ⟨ "ans", []⟩⟩

/-- A query environment whose loader returns none. -/
def envLoadNone : QueryEnv Nat :=
  ⟨ fun _ _ => .ok none, fun _ _ _ _ => .ok ⟨ "ans", []⟩⟩

/-- A GitHub environment with no token in the process environment and every
external call succeeding. -/
def envNoToken : GithubEnv Nat where
  envToken := none
  githubInit := fun _ => .ok ()
  getRepo := fun _ => .ok ()
  getBranchSha := fun _ _ => .ok "sha"
  clientInit := fun _ => .ok ()
  loadData := fun _ _ _ => .ok [ "doc"]
  fromDocuments := fun _ => .ok 0

/-- A GitHub environment with a token present and every external call
succeeding. -/
def envAllOk : GithubEnv Nat where
  envToken := some "tok"
  githubInit := fun _ => .ok ()
  getRepo := fun _ => .ok ()
  getBranchSha := fun _ _ => .ok "sha"
  clientInit := fun _ => .ok ()
  loadData := fun _ _ _ => .ok [ "doc"]
  fromDocuments := fun _ => .ok 0

/-- A process environment where GITHUB_TOKEN is unset. -/
def envMissingGithub : String → Option String :=
  fun v => if v = "OPENAI_API_KEY" then some "k" else none

/-! Helper lemmas about the cache. -/

/-- On a cache hit, get_or_create_index returns the stored index, leaves the
cache unchanged and never calls the loader. -/
theorem goc_hit (Index : Type)
    (loader : String → String → Except String (Option Index))
    (cache : List (String × Index)) (repo_name branch : String) (idx : Index)
    (h : cacheLookup Index (repo_name ++ ":" ++ branch) cache = some idx) :
    get_or_create_index Index loader cache repo_name branch
      = ( .ok (some idx), cache, 0) := by
  simp [get_or_create_index, h]

/-- When a get_or_create_index call returns some index, the cache it leaves
behind maps the key to that index. -/
theorem goc_result_lookup (Index : Type)
    (loader : String → String → Except String (Option Index))
    (cache : List (String × Index)) (repo_name branch : String) (idx : Index)
    (h : (get_or_create_index Index loader cache repo_name branch).1
      = .ok (some idx)) :
    cacheLookup Index (repo_name ++ ":" ++ branch)
        (get_or_create_index Index loader cache repo_name branch).2.1
      = some idx := by
  cases hl : cacheLookup Index (repo_name ++ ":" ++ branch) cache with
  | some v =>
    have hg := goc_hit Index loader cache repo_name branch v hl
    rw [hg] at h ⊢
    simp at h
    rw [hl, h]
  | none =>
    cases hld : loader repo_name branch with
    | error e => simp [get_or_create_index, hl, hld] at h
    | ok o =>
      cases o with
      | none => simp [get_or_create_index, hl, hld] at h
      | some i =>
        simp [get_or_create_index, hl, hld, cacheLookup] at h ⊢
        exact h

/-! Claim theorems. -/

/-- Claim C1 (code bug exhibit): with no github_token argument and no
GITHUB_TOKEN in the environment, load_github_docs does not return None: the
ValueError raised before g is assigned makes the finally clause evaluate
g.close() on an unbound local, so an UnboundLocalError propagates to the
caller and the GitHub client is never closed. -/
theorem load_github_docs_no_token_uncaught :
    load_github_docs Nat envNoToken "octo/hello" none "main"
      = ⟨ .error unboundLocalErrorG, false, none⟩ := rfl

/-- Claim C2: when a first get_or_create_index call yields a stored index for
the key, a second call with the same repo_name and branch returns that very
index, leaves the cache unchanged, and does not invoke the loader again. -/
theorem get_or_create_index_second_call (Index : Type)
    (loader : String → String → Except String (Option Index))
    (cache : List (String × Index)) (repo_name branch : String) (idx : Index)
    (h : (get_or_create_index Index loader cache repo_name branch).1
      = .ok (some idx)) :
    get_or_create_index Index loader
        (get_or_create_index Index loader cache repo_name branch).2.1
        repo_name branch
      = ( .ok (some idx),
          (get_or_create_index Index loader cache repo_name branch).2.1, 0) :=
  goc_hit Index loader
    (get_or_create_index Index loader cache repo_name branch).2.1
    repo_name branch idx
    (goc_result_lookup Index loader cache repo_name branch idx h)

/-- Witness for C2 at a concrete loader, cache and key. -/
theorem get_or_create_index_second_call_witness :
    get_or_create_index Nat loaderW
        (get_or_create_index Nat loaderW [] "octo/hello" "main").2.1
        "octo/hello" "main"
      = ( .ok (some 7),
          (get_or_create_index Nat loaderW [] "octo/hello" "main").2.1, 0) :=
  get_or_create_index_second_call Nat loaderW [] "octo/hello" "main" 7 rfl

/-- Claim C3: on a cache miss where the loader returns none,
get_or_create_index stores nothing, leaves the cache unchanged and returns
none; the POST /query handler then answers HTTP 500 with the body
error Failed to load repository. -/
theorem query_docs_load_none_500 (Index : Type) (env : QueryEnv Index)
    (cache : List (String × Index)) (repo q branch : String)
    (hmiss : cacheLookup Index (repo ++ ":" ++ branch) cache = none)
    (hload : env.loader repo branch = .ok none) :
    get_or_create_index Index env.loader cache repo branch
      = ( .ok none, cache, 1)
    ∧ query_docs Index env cache (some ⟨ some repo, some q, some branch⟩)
      = ⟨ .err "Failed to load repository", 500, cache, 1⟩ := by
  have hg : get_or_create_index Index env.loader cache repo branch
      = ( .ok none, cache, 1) := by
    simp [get_or_create_index, hmiss, hload]
  exact ⟨ hg, by simp [query_docs, hg]⟩

/-- Witness for C3 at a concrete environment whose loader returns none. -/
theorem query_docs_load_none_500_witness :
    get_or_create_index Nat envLoadNone.loader [] "octo/hello" "main"
      = ( .ok none, [], 1)
    ∧ query_docs Nat envLoadNone []
        (some ⟨ some "octo/hello", some "hi", some "main"⟩)
      = ⟨ .err "Failed to load repository", 500, [], 1⟩ :=
  query_docs_load_none_500 Nat envLoadNone [] "octo/hello" "hi" "main" rfl rfl

/-- Claim C4: a missing body, or a body missing the repo field or the query
field, yields HTTP 400 with the fixed message, an unchanged cache and zero
loader invocations. -/
theorem query_docs_missing_params (Index : Type) (env : QueryEnv Index)
    (cache : List (String × Index)) (body : Option ReqBody)
    (h : body = none
      ∨ ∃ d, body = some d ∧ (d.repo = none ∨ d.query = none)) :
    query_docs Index env cache body
      = ⟨ .err "Missing required parameters", 400, cache, 0⟩ := by
  rcases h with h | ⟨ d, hd, hmiss⟩
  · subst h; rfl
  · subst hd
    rcases d with ⟨ r, q, b⟩
    rcases hmiss with hr | hq
    · simp only [ReqBody.repo] at hr
      subst hr
      cases q <;> rfl
    · simp only [ReqBody.query] at hq
      subst hq
      cases r <;> rfl

/-- Witness for C4 at an absent body. -/
theorem query_docs_missing_params_witness :
    query_docs Nat envW [] none
      = ⟨ .err "Missing required parameters", 400, [], 0⟩ :=
  query_docs_missing_params Nat envW [] none (Or.inl rfl)

/-- Claim C5: with valid repo and query fields, an index in hand and a
successful engine run, the handler queries the engine built with
similarity_top_k 3 and the model gpt-3.5-turbo and answers HTTP 200 with the
str() of the response and the source-node texts in order. -/
theorem query_docs_success_200 (Index : Type) (env : QueryEnv Index)
    (cache : List (String × Index)) (repo q : String) (br : Option String)
    (index : Index) (c : List (String × Index)) (n : Nat)
    (resp : EngineResponse)
    (hgoc : get_or_create_index Index env.loader cache repo (br.getD "main")
      = ( .ok (some index), c, n))
    (hrun : env.runEngine index 3 "gpt-3.5-turbo" q = .ok resp) :
    query_docs Index env cache (some ⟨ some repo, some q, br⟩)
      = ⟨ .answer resp.text resp.sourceNodes, 200, c, n⟩ := by
  simp [query_docs, hgoc, hrun]

/-- Witness for C5 at a concrete environment and request. -/
theorem query_docs_success_200_witness :
    query_docs Nat envW [] (some ⟨ some "octo/hello", some "hi", none⟩)
      = ⟨ .answer "ans" [ "s1", "s2"], 200, [( "octo/hello:main", 7)], 1⟩ :=
  query_docs_success_200 Nat envW [] "octo/hello" "hi" none 7
    [( "octo/hello:main", 7)] 1 ⟨ "ans", [ "s1", "s2"]⟩ rfl rfl

/-- Claim C6: an exception propagating out of the index lookup, or out of
query-engine construction and execution, is answered with HTTP 500 and a body
carrying the raw exception message. -/
theorem query_docs_exception_500 (Index : Type) (env : QueryEnv Index)
    (cache : List (String × Index)) (repo q e : String) (br : Option String)
    (h : (get_or_create_index Index env.loader cache repo (br.getD "main")).1
        = .error e
      ∨ ∃ index c n,
          get_or_create_index Index env.loader cache repo (br.getD "main")
            = ( .ok (some index), c, n)
          ∧ env.runEngine index 3 "gpt-3.5-turbo" q = .error e) :
    (query_docs Index env cache (some ⟨ some repo, some q, br⟩)).resp
      = .err e
    ∧ (query_docs Index env cache (some ⟨ some repo, some q, br⟩)).status
      = 500 := by
  rcases h with herr | ⟨ index, c, n, hgoc, hrun⟩
  · rcases hgg : get_or_create_index Index env.loader cache repo (br.getD "main")
      with ⟨ res, c, n⟩
    rw [hgg] at herr
    simp at herr
    subst herr
    constructor <;> simp [query_docs, hgg]
  · constructor <;> simp [query_docs, hgoc, hrun]

/-- Witness for C6 at a concrete environment whose loader raises. -/
theorem query_docs_exception_500_witness :
    (query_docs Nat envBoom []
        (some ⟨ some "octo/hello", some "hi", none⟩)).resp = .err "boom"
    ∧ (query_docs Nat envBoom []
        (some ⟨ some "octo/hello", some "hi", none⟩)).status = 500 :=
  query_docs_exception_500 Nat envBoom [] "octo/hello" "hi" "boom" none
    (Or.inl rfl)

/-- Claim C7: a body without a branch field behaves exactly as a body with
branch main; outside the key repo_name colon branch the cache is untouched by
get_or_create_index, and when no exception propagates the returned value is
the cache entry at that very key. -/
theorem query_docs_branch_default_and_cache_key (Index : Type) :
    (∀ (env : QueryEnv Index) (cache : List (String × Index))
        (repo q : String),
      query_docs Index env cache (some ⟨ some repo, some q, none⟩)
        = query_docs Index env cache (some ⟨ some repo, some q, some "main"⟩))
    ∧ (∀ (loader : String → String → Except String (Option Index))
        (cache : List (String × Index)) (repo_name branch k : String),
        k ≠ repo_name ++ ":" ++ branch →
          cacheLookup Index k
              (get_or_create_index Index loader cache repo_name branch).2.1
            = cacheLookup Index k cache)
    ∧ (∀ (loader : String → String → Except String (Option Index))
        (cache : List (String × Index)) (repo_name branch : String),
        (∃ e, (get_or_create_index Index loader cache repo_name branch).1
          = .error e)
        ∨ (get_or_create_index Index loader cache repo_name branch).1
          = .ok (cacheLookup Index (repo_name ++ ":" ++ branch)
              (get_or_create_index Index loader cache repo_name branch).2.1)) := by
  refine ⟨ fun env cache repo q => rfl, ?_, ?_⟩
  · intro loader cache repo_name branch k hk
    cases hl : cacheLookup Index (repo_name ++ ":" ++ branch) cache with
    | some v => simp [get_or_create_index, hl]
    | none =>
      cases hld : loader repo_name branch with
      | error e => simp [get_or_create_index, hl, hld]
      | ok o =>
        cases o with
        | none => simp [get_or_create_index, hl, hld]
        | some i =>
          simp [get_or_create_index, hl, hld, cacheLookup, Ne.symm hk]
  · intro loader cache repo_name branch
    cases hl : cacheLookup Index (repo_name ++ ":" ++ branch) cache with
    | some v => right; simp [get_or_create_index, hl]
    | none =>
      cases hld : loader repo_name branch with
      | error e => exact Or.inl ⟨ e, by simp [get_or_create_index, hl, hld]⟩
      | ok o =>
        cases o with
        | none => right; simp [get_or_create_index, hl, hld]
        | some i => right; simp [get_or_create_index, hl, hld]

/-- Witness for C7 at a concrete request and a key other than the one used. -/
theorem query_docs_branch_default_and_cache_key_witness :
    query_docs Nat envW [] (some ⟨ some "octo/hello", some "hi", none⟩)
      = query_docs Nat envW []
          (some ⟨ some "octo/hello", some "hi", some "main"⟩)
    ∧ cacheLookup Nat "other"
        (get_or_create_index Nat loaderW [] "octo/hello" "main").2.1
      = cacheLookup Nat "other" [] :=
  ⟨ (query_docs_branch_default_and_cache_key Nat).1 envW [] "octo/hello" "hi",
    (query_docs_branch_default_and_cache_key Nat).2.1 loaderW [] "octo/hello"
      "main" "other" (by decide)⟩

/-- Claim C8: the health handler answers HTTP 200 with status healthy for any
cache state, returns the same response for any two cache states, and leaves
the state unchanged. -/
theorem health_check_constant (Index : Type)
    (c1 c2 : List (String × Index)) :
    health_check Index c1 = ((( "status", "healthy"), 200), c1)
    ∧ (health_check Index c1).1 = (health_check Index c2).1 :=
  ⟨ rfl, rfl⟩

/-- Claim C9: when GITHUB_TOKEN or OPENAI_API_KEY is unset, the main block
raises the ValueError naming the missing variables and never reaches app.run,
so the server does not bind its port. -/
theorem main_startup_missing_env (env : String → Option String)
    (h : env "GITHUB_TOKEN" = none ∨ env "OPENAI_API_KEY" = none) :
    missing_vars env ≠ []
    ∧ main_startup env
      = .valueError ( "Missing required environment variables: "
          ++ String.intercalate ", " (missing_vars env)) := by
  have hne : missing_vars env ≠ [] := by
    rcases h with h | h
    · have hmem : "GITHUB_TOKEN" ∈ missing_vars env := by
        simp [missing_vars, required_vars, h]
        decide
      intro hnil
      rw [hnil] at hmem
      simp at hmem
    · have hmem : "OPENAI_API_KEY" ∈ missing_vars env := by
        simp [missing_vars, required_vars, h]
        decide
      intro hnil
      rw [hnil] at hmem
      simp at hmem
  refine ⟨ hne, ?_⟩
  have hfalse : (missing_vars env).isEmpty = false := by
    cases hm : missing_vars env with
    | nil => exact absurd hm hne
    | cons a l => rfl
  simp [main_startup, hfalse]

/-- Witness for C9 at an environment with GITHUB_TOKEN unset. -/
theorem main_startup_missing_env_witness :
    missing_vars envMissingGithub ≠ []
    ∧ main_startup envMissingGithub
      = .valueError ( "Missing required environment variables: "
          ++ String.intercalate ", " (missing_vars envMissingGithub)) :=
  main_startup_missing_env envMissingGithub (Or.inl rfl)

/-- Claim C10: a repo_name with two or more slash separators does not fail at
the split step: the first segment becomes the owner, the second the
repository, the rest are discarded, and g.get_repo is invoked on exactly
owner slash repo. -/
theorem load_github_docs_multi_segment (Index : Type) (env : GithubEnv Index)
    (t repo_name branch owner repo seg3 : String) (rest : List String)
    (hsplit : pySplit '/' repo_name = owner :: repo :: seg3 :: rest)
    (hinit : env.githubInit t = .ok ()) :
    (load_github_docs Index env repo_name (some t) branch).getRepoArg
      = some (owner ++ "/" ++ repo) := by
  have h1 : (load_try_body Index env t repo_name branch).1
      = some (owner ++ "/" ++ repo) := by
    simp [load_try_body, hsplit]
  cases hb : (load_try_body Index env t repo_name branch).2 <;>
    simp [load_github_docs, hinit, hb, h1]

/-- Witness for C10 at the three-segment name a/b/c. -/
theorem load_github_docs_multi_segment_witness :
    (load_github_docs Nat envAllOk "a/b/c" (some "tok") "main").getRepoArg
      = some ( "a" ++ "/" ++ "b") :=
  load_github_docs_multi_segment Nat envAllOk "tok" "a/b/c" "main" "a" "b"
    "c" [] (by decide) rfl
